import Mathlib

/-!
# Verification of the knowledge-base curator application

Shallow embedding of the authorization helpers, the review/completion state
machine, the similarity-search SQL function and the HTTP route handlers of the
curator repository, together with theorems settling the specification claims.

Conventions used throughout:
* machine strings stay `String` (roles, statuses, keys), timestamps become `Nat`;
* database tables become association lists of row structures;
* the hosted platform's opaque services (vector distance operator, blob storage,
  failure of an individual insert) become explicit parameters.
-/

namespace Curator

/-- A row of the `profiles` table (`001_initial_schema.sql`, table 1); the
timestamp columns are collapsed to a single `Nat` stamp for `updated_at`. -/
structure ProfileRow where
  id : String
  email : String
  full_name : String
  role : String
  is_active : Bool
  updated_at : Nat
deriving DecidableEq, Repr

/-- `hasRole` from `src/lib/auth/helpers.ts`: the current user is `none` when
unauthenticated or profile lookup failed, mirroring `getCurrentUser`. -/
def hasRole (user : Option ProfileRow) (requiredRole : String) : Bool :=
  match user with
  | none => false
  | some u =>
    if u.is_active = false then false
    else if u.role = "admin" then true
    else if u.role = "curator" ∧ (requiredRole = "curator" ∨ requiredRole = "user") then true
    else if u.role = "user" ∧ requiredRole = "user" then true
    else false

/-- The `SELECT role FROM profiles WHERE id = user_id AND is_active = true`
lookup inside the SQL `has_role` function. -/
def lookupActiveRole (profiles : List ProfileRow) (user_id : String) : Option String :=
  (profiles.find? (fun p => p.id = user_id ∧ p.is_active = true)).map (·.role)

/-- `has_role` from `001_initial_schema.sql`: the SQL copy of the role check. -/
def has_role (profiles : List ProfileRow) (user_id : String) (required_role : String) : Bool :=
  match lookupActiveRole profiles user_id with
  | none => false
  | some user_role =>
    if user_role = "admin" then true
    else if user_role = "curator" ∧ (required_role = "curator" ∨ required_role = "user") then true
    else if user_role = "user" ∧ required_role = "user" then true
    else false

/-- C1: The role check with an active profile follows the hierarchy table:
admin satisfies every required role, curator satisfies curator and user, user
satisfies only user; with `is_active = false` it always returns false; an
unrecognized role string falls through to false.  Stated for `hasRole`
(`helpers.ts`), with the final conjunct showing the SQL copy `has_role` agrees
with it on a one-profile table. -/
theorem c1_role_hierarchy (r q i e n : String) (act : Bool) (t : Nat) :
    (hasRole (some ⟨i, e, n, "admin", true, t⟩) q = true)
    ∧ (hasRole (some ⟨i, e, n, "curator", true, t⟩) q = true ↔ (q = "curator" ∨ q = "user"))
    ∧ (hasRole (some ⟨i, e, n, "user", true, t⟩) q = true ↔ q = "user")
    ∧ (hasRole (some ⟨i, e, n, r, false, t⟩) q = false)
    ∧ (r ≠ "user" → r ≠ "curator" → r ≠ "admin" →
        hasRole (some ⟨i, e, n, r, true, t⟩) q = false)
    ∧ (has_role [⟨i, e, n, r, act, t⟩] i q = hasRole (some ⟨i, e, n, r, act, t⟩) q) := by
  refine ⟨by simp [hasRole], by simp [hasRole], by simp [hasRole], by simp [hasRole], ?_, ?_⟩
  · intro h1 h2 h3
    simp [hasRole, h1, h2, h3]
  · cases act with
    | false => simp [hasRole, has_role, lookupActiveRole, List.find?]
    | true => simp [hasRole, has_role, lookupActiveRole, List.find?]

/-- Closed instance of `c1_role_hierarchy`: an unrecognized role (`"ghost"`)
falls through to false. -/
theorem c1_role_hierarchy_witness :
    hasRole (some ⟨"u1", "e", "n", "ghost", true, 0⟩) "user" = false :=
  (c1_role_hierarchy "ghost" "user" "u1" "e" "n" true 0).2.2.2.2.1
    (by decide) (by decide) (by decide)

/-- Result value of the profile-mutation helpers in `helpers.ts`:
`{ success: true }` or `{ success: false, error }`. -/
inductive OpResult where
  | ok : OpResult
  | err : String → OpResult
deriving DecidableEq, Repr

/-- `updateUserRole` from `src/lib/auth/helpers.ts`.  The authenticated actor
(`getCurrentUser()`) and the `profiles` table are explicit; the final update
stamps `updated_at` with the current time `now`. -/
def updateUserRole (currentUser : Option ProfileRow) (profiles : List ProfileRow)
    (userId : String) (newRole : String) (now : Nat) : OpResult × List ProfileRow :=
  match currentUser with
  | none => (.err "Only admins can change user roles", profiles)
  | some cu =>
    if cu.role ≠ "admin" then (.err "Only admins can change user roles", profiles)
    else if cu.id = userId then (.err "Cannot change your own role", profiles)
    else (.ok, profiles.map (fun p =>
      if p.id = userId then { p with role := newRole, updated_at := now } else p))

/-- `setUserActiveStatus` from `src/lib/auth/helpers.ts`. -/
def setUserActiveStatus (currentUser : Option ProfileRow) (profiles : List ProfileRow)
    (userId : String) (isActive : Bool) (now : Nat) : OpResult × List ProfileRow :=
  match currentUser with
  | none => (.err "Only admins can change user status", profiles)
  | some cu =>
    if cu.role ≠ "admin" then (.err "Only admins can change user status", profiles)
    else if cu.id = userId ∧ isActive = false then
      (.err "Cannot deactivate your own account", profiles)
    else (.ok, profiles.map (fun p =>
      if p.id = userId then { p with is_active := isActive, updated_at := now } else p))

/-- C4 counterexample: The claim says `updateRole` fails with the
self-modification error whenever `actorId = targetId`; but for a non-admin
actor targeting itself the admin check fires first, so the call fails with the
authorization error, which is a different error value. -/
theorem c4_nonadmin_self_gets_auth_error :
    (updateUserRole (some ⟨"a", "e", "n", "curator", true, 0⟩) [] "a" "user" 1).1
      = .err "Only admins can change user roles"
    ∧ (OpResult.err "Only admins can change user roles"
        ≠ OpResult.err "Cannot change your own role") := by
  decide

/-- C4 amended: `updateRole` fails with the authorization error whenever
the actor is not an admin (even when targeting itself); for an admin actor it
fails with the self-modification error whenever `actorId = targetId`;
`setActive` fails whenever the actor is not an admin, and for an admin actor
whenever `actorId = targetId` and the new value deactivates (an admin setting
an account active — its own included — succeeds); in every failing case the
profiles table is unchanged, and every successful mutation writes the new
field and stamps `updated_at` on the targeted rows.  The conjuncts cover all
success cases of the source: `updateUserRole` succeeds exactly for an admin
actor with `actorId ≠ targetId`, `setUserActiveStatus` exactly for an admin
actor unless it deactivates itself. -/
theorem c4_profile_mutation_guards (cu : ProfileRow) (profiles : List ProfileRow)
    (userId newRole : String) (isActive : Bool) (now : Nat) :
    (cu.role ≠ "admin" →
      updateUserRole (some cu) profiles userId newRole now
        = (.err "Only admins can change user roles", profiles)
      ∧ setUserActiveStatus (some cu) profiles userId isActive now
        = (.err "Only admins can change user status", profiles))
    ∧ (cu.role = "admin" → cu.id = userId →
      updateUserRole (some cu) profiles userId newRole now
        = (.err "Cannot change your own role", profiles))
    ∧ (cu.role = "admin" → cu.id = userId → isActive = false →
      setUserActiveStatus (some cu) profiles userId isActive now
        = (.err "Cannot deactivate your own account", profiles))
    ∧ (cu.role = "admin" → cu.id ≠ userId →
      updateUserRole (some cu) profiles userId newRole now
        = (.ok, profiles.map (fun p =>
            if p.id = userId then { p with role := newRole, updated_at := now } else p))
      ∧ setUserActiveStatus (some cu) profiles userId isActive now
        = (.ok, profiles.map (fun p =>
            if p.id = userId then { p with is_active := isActive, updated_at := now } else p)))
    ∧ (cu.role = "admin" → isActive = true →
      setUserActiveStatus (some cu) profiles userId isActive now
        = (.ok, profiles.map (fun p =>
            if p.id = userId then { p with is_active := isActive, updated_at := now } else p))) := by
  refine ⟨fun h => ⟨?_, ?_⟩, fun h hs => ?_, fun h hs hd => ?_, fun h hns => ⟨?_, ?_⟩,
    fun h hI => ?_⟩
  · simp [updateUserRole, h]
  · simp [setUserActiveStatus, h]
  · simp [updateUserRole, h, hs]
  · simp [setUserActiveStatus, h, hs, hd]
  · simp [updateUserRole, h, hns]
  · simp [setUserActiveStatus, h, hns]
  · simp [setUserActiveStatus, h, hI]

/-- Closed instance of `c4_profile_mutation_guards`: an admin targeting itself
with a deactivation gets the self-modification error and the table is kept,
while the same admin setting itself active succeeds and stamps `updated_at`. -/
theorem c4_profile_mutation_guards_witness :
    (setUserActiveStatus (some ⟨"a", "e", "n", "admin", true, 0⟩)
        [⟨"a", "e", "n", "admin", true, 0⟩] "a" false 7
      = (.err "Cannot deactivate your own account", [⟨"a", "e", "n", "admin", true, 0⟩]))
    ∧ (setUserActiveStatus (some ⟨"a", "e", "n", "admin", true, 0⟩)
        [⟨"a", "e", "n", "admin", true, 0⟩] "a" true 7
      = (.ok, [⟨"a", "e", "n", "admin", true, 7⟩])) :=
  ⟨(c4_profile_mutation_guards ⟨"a", "e", "n", "admin", true, 0⟩
      [⟨"a", "e", "n", "admin", true, 0⟩] "a" "user" false 7).2.2.1 rfl rfl rfl,
   by
    have h := (c4_profile_mutation_guards ⟨"a", "e", "n", "admin", true, 0⟩
      [⟨"a", "e", "n", "admin", true, 0⟩] "a" "user" true 7).2.2.2.2 rfl rfl
    rw [h]
    decide⟩

/-- A row of the `documents` table restricted to the fields the completion
logic reads (`id`, `processing_status`, `total_chunks`; `total_chunks` is a
nullable column). -/
structure DocumentRow where
  id : String
  processing_status : String
  total_chunks : Option Nat
deriving DecidableEq, Repr

/-- A row of `document_chunks` restricted to the fields the completion trigger
reads. -/
structure ChunkStatusRow where
  id : String
  document_id : String
  review_status : String
deriving DecidableEq, Repr

/-- The `COUNT(*)` of chunks of a document whose `review_status` is in
`('approved', 'rejected', 'filtered')`, from `check_document_completion`. -/
def countReviewed (chunks : List ChunkStatusRow) (doc_id : String) : Nat :=
  (chunks.filter (fun c =>
    c.document_id = doc_id ∧
    (c.review_status = "approved" ∨ c.review_status = "rejected"
      ∨ c.review_status = "filtered"))).length

/-- `check_document_completion` from `001_initial_schema.sql`: reads the
document's `total_chunks` (NULL when the document is missing), counts reviewed
chunks, and sets `processing_status = 'completed'` when the count has reached
the total. -/
def check_document_completion (docs : List DocumentRow) (chunks : List ChunkStatusRow)
    (doc_id : String) : List DocumentRow :=
  match (docs.find? (fun d => d.id = doc_id)).bind (·.total_chunks) with
  | none => docs
  | some total =>
    if total ≤ countReviewed chunks doc_id then
      docs.map (fun d => if d.id = doc_id then { d with processing_status := "completed" } else d)
    else docs

/-- An `UPDATE document_chunks SET review_status = newStatus WHERE id = chunkId`
followed by the `check_completion_after_review` trigger, which runs
`check_document_completion` only `WHEN (NEW.review_status IN ('approved',
'rejected'))`.  When no chunk row matches, no row is updated and the `AFTER
UPDATE` trigger does not run. -/
def updateChunkReviewStatus (docs : List DocumentRow) (chunks : List ChunkStatusRow)
    (chunkId : String) (newStatus : String) : List DocumentRow × List ChunkStatusRow :=
  match chunks.find? (fun c => c.id = chunkId) with
  | none => (docs, chunks)
  | some c =>
    let chunks' := chunks.map (fun c0 =>
      if c0.id = chunkId then { c0 with review_status := newStatus } else c0)
    if newStatus = "approved" ∨ newStatus = "rejected" then
      (check_document_completion docs chunks' c.document_id, chunks')
    else (docs, chunks')

/-- C2 counterexample: A document with `total_chunks = 1` whose only chunk
moves to `review_status = 'filtered'`: the terminal count reaches the total,
yet the completion trigger does not fire (its `WHEN` clause lists only
`approved` and `rejected`), so the document stays in `review` instead of
becoming `completed`. -/
theorem c2_filtered_does_not_complete :
    (updateChunkReviewStatus [⟨"d", "review", some 1⟩] [⟨"c", "d", "pending"⟩] "c" "filtered")
      = ([⟨"d", "review", some 1⟩], [⟨"c", "d", "filtered"⟩])
    ∧ countReviewed [⟨"c", "d", "filtered"⟩] "d" = 1 := by
  decide

/-- C2 amended: The completion transition fires only when a chunk's
`review_status` is updated to `approved` or `rejected` (updating to `filtered`
— or any other status — never changes any document), although chunks already in
`filtered` status do count toward the total; on an update to
`approved`/`rejected`, the document whose `total_chunks = N` becomes
`completed` exactly when the number of its chunks in a terminal review status
reaches `N`, and no document changes while the count stays below `N`. -/
theorem c2_completion_exactly_at_total (docs : List DocumentRow)
    (chunks : List ChunkStatusRow) (chunkId newStatus : String) (c : ChunkStatusRow)
    (d : DocumentRow) (N : Nat)
    (hc : chunks.find? (fun c0 => c0.id = chunkId) = some c) :
    (¬ (newStatus = "approved" ∨ newStatus = "rejected") →
      (updateChunkReviewStatus docs chunks chunkId newStatus).1 = docs)
    ∧ ((newStatus = "approved" ∨ newStatus = "rejected") →
      docs.find? (fun d0 => d0.id = c.document_id) = some d →
      d.total_chunks = some N →
      let chunks' := chunks.map (fun c0 =>
        if c0.id = chunkId then { c0 with review_status := newStatus } else c0)
      (N ≤ countReviewed chunks' c.document_id →
        (updateChunkReviewStatus docs chunks chunkId newStatus).1
          = docs.map (fun d0 => if d0.id = c.document_id then
              { d0 with processing_status := "completed" } else d0))
      ∧ (countReviewed chunks' c.document_id < N →
        (updateChunkReviewStatus docs chunks chunkId newStatus).1 = docs)) := by
  constructor
  · intro h
    simp [updateChunkReviewStatus, hc, h]
  · intro h hd hN
    refine ⟨fun hle => ?_, fun hlt => ?_⟩
    · simp [updateChunkReviewStatus, hc, h, check_document_completion, hd, hN, hle]
    · simp [updateChunkReviewStatus, hc, h, check_document_completion, hd, hN,
        Nat.not_le.mpr hlt]

/-- Closed instance of `c2_completion_exactly_at_total`: approving the last
pending chunk of a two-chunk document (the other already `filtered`) completes
the document. -/
theorem c2_completion_exactly_at_total_witness :
    (updateChunkReviewStatus [⟨"d", "review", some 2⟩]
        [⟨"c1", "d", "filtered"⟩, ⟨"c2", "d", "pending"⟩] "c2" "approved").1
      = [⟨"d", "completed", some 2⟩] := by
  have h := (c2_completion_exactly_at_total [⟨"d", "review", some 2⟩]
    [⟨"c1", "d", "filtered"⟩, ⟨"c2", "d", "pending"⟩] "c2" "approved"
    ⟨"c2", "d", "pending"⟩ ⟨"d", "review", some 2⟩ 2 (by decide)).2
    (Or.inl rfl) (by decide) rfl
  exact h.1 (by decide)

/-- The `select('role').eq('id', uid).single()` profile lookup the route
handlers perform; only the role column is read. -/
def findProfileRole (profiles : List ProfileRow) (uid : String) : Option String :=
  (profiles.find? (fun p => p.id = uid)).map (·.role)

/-- Outcome of `POST /api/chunks/{id}/review`
(`src/app/api/chunks/[id]/review/route.ts`): the HTTP status plus which of the
two curator operations (`approveChunk` / `rejectChunk`) the handler invoked. -/
structure ReviewResponse where
  status : Nat
  invokedApprove : Bool
  invokedReject : Bool
deriving DecidableEq, Repr

/-- The `POST /api/chunks/{id}/review` handler.  `sessionUser` is the outcome
of `supabase.auth.getUser()`; the body's `action` field is a string.  The
handler checks only the profile's `role` column — `is_active` is never read. -/
def reviewPOST (sessionUser : Option String) (profiles : List ProfileRow)
    (action : String) : ReviewResponse :=
  match sessionUser with
  | none => ⟨401, false, false⟩
  | some uid =>
    match findProfileRole profiles uid with
    | none => ⟨403, false, false⟩
    | some role =>
      if ¬ (role = "curator" ∨ role = "admin") then ⟨403, false, false⟩
      else if ¬ (action = "approve" ∨ action = "reject") then ⟨400, false, false⟩
      else if action = "approve" then ⟨200, true, false⟩
      else ⟨200, false, true⟩

/-- C5 counterexample: An authenticated curator whose profile has
`is_active = false` sends `action = "approve"`: the route answers 200 and
invokes the approve operation instead of returning 403, because the handler
reads only the `role` column and never checks `is_active`. -/
theorem c5_inactive_curator_not_rejected :
    reviewPOST (some "u1") [⟨"u1", "e", "n", "curator", false, 0⟩] "approve"
      = ⟨200, true, false⟩
    ∧ (ProfileRow.is_active ⟨"u1", "e", "n", "curator", false, 0⟩ = false) := by
  decide

/-- C5 amended: The review route returns 401 without a session; 403
unless the caller's profile exists and its role is curator or admin (the
`is_active` flag is not checked); 400 when the body's action is neither
`approve` nor `reject`; and only for those two actions by a caller passing the
role check does it invoke the corresponding operation and answer 200. -/
theorem c5_review_route_dispatch (sessionUser : Option String)
    (profiles : List ProfileRow) (action : String) :
    (sessionUser = none → reviewPOST sessionUser profiles action = ⟨401, false, false⟩)
    ∧ (∀ uid, sessionUser = some uid →
      (findProfileRole profiles uid = none →
        reviewPOST sessionUser profiles action = ⟨403, false, false⟩)
      ∧ (∀ role, findProfileRole profiles uid = some role →
        (¬ (role = "curator" ∨ role = "admin") →
          reviewPOST sessionUser profiles action = ⟨403, false, false⟩)
        ∧ ((role = "curator" ∨ role = "admin") →
          (¬ (action = "approve" ∨ action = "reject") →
            reviewPOST sessionUser profiles action = ⟨400, false, false⟩)
          ∧ (action = "approve" →
            reviewPOST sessionUser profiles action = ⟨200, true, false⟩)
          ∧ (action = "reject" →
            reviewPOST sessionUser profiles action = ⟨200, false, true⟩)))) := by
  refine ⟨fun h => by simp [reviewPOST, h], fun uid hu => ⟨fun hp => ?_, fun role hr => ?_⟩⟩
  · simp [reviewPOST, hu, hp]
  · refine ⟨fun hrole => ?_, fun hrole => ⟨fun ha => ?_, fun ha => ?_, fun ha => ?_⟩⟩
    · simp [reviewPOST, hu, hr, hrole]
    · simp [reviewPOST, hu, hr, hrole, ha]
    · simp [reviewPOST, hu, hr, hrole, ha]
    · subst ha
      simp [reviewPOST, hu, hr, hrole]

/-- Closed instance of `c5_review_route_dispatch`: an active admin rejecting a
chunk gets 200 with the reject operation invoked. -/
theorem c5_review_route_dispatch_witness :
    reviewPOST (some "a") [⟨"a", "e", "n", "admin", true, 0⟩] "reject"
      = ⟨200, false, true⟩ :=
  ((((c5_review_route_dispatch (some "a") [⟨"a", "e", "n", "admin", true, 0⟩]
    "reject").2 "a" rfl).2 "admin" (by decide)).2 (Or.inr rfl)).2.2 rfl

/-- JavaScript truthiness of a nullable form-data string: `null`/missing and
the empty string are falsy (`if (!file || !title || !documentType)`). -/
def jsTruthy (s : Option String) : Bool :=
  match s with
  | none => false
  | some v => v ≠ ""

/-- Columns of the `documents` table as created by `001_initial_schema.sql`. -/
def documentsColumns : List String :=
  ["id", "filename", "original_filename", "doc_type", "storage_path", "file_size",
   "mime_type", "upload_date", "uploaded_by", "processing_status", "total_chunks",
   "approved_chunks", "rejected_chunks", "metadata", "error_message"]

/-- The `CHECK` enum on `documents.processing_status`. -/
def processingStatuses : List String :=
  ["pending", "processing", "review", "completed", "failed"]

/-- An `UPDATE documents SET ... WHERE id = targetId` with a (column, value)
assignment list, validated against the schema: referencing a column that does
not exist, or writing a `processing_status` outside its `CHECK` enum, makes the
whole statement fail with an error and no row changes.  Only the
`processing_status` assignment is reflected on the row model; the other schema
columns are not tracked by `DocumentRow`. -/
def documentsUpdate (docs : List DocumentRow) (targetId : String)
    (cols : List (String × String)) : Except String (List DocumentRow) :=
  if ¬ (cols.all (fun kv => documentsColumns.contains kv.1)) then
    .error "column does not exist"
  else if ¬ (cols.all (fun kv =>
      kv.1 ≠ "processing_status" ∨ processingStatuses.contains kv.2)) then
    .error "violates check constraint"
  else
    .ok (docs.map (fun d =>
      if d.id = targetId then
        cols.foldl (fun d0 kv =>
          if kv.1 = "processing_status" then { d0 with processing_status := kv.2 } else d0) d
      else d))

/-- Modelled from the spec: `uploadDocument` (imported by the upload route from
`src/lib/api/curator`, which is not present in the source tree) stores the
file and creates the document record; per the spec's lifecycle, the record is
"created on upload (status=pending)", and the call returns its id. -/
def uploadDocument (docs : List DocumentRow) (newId : String) :
    List DocumentRow × String :=
  (docs ++ [⟨newId, "pending", none⟩], newId)

/-- Outcome of `POST /api/documents/upload`: HTTP status and the returned
`documentId` when present. -/
structure UploadResponse where
  status : Nat
  documentId : Option String
deriving DecidableEq, Repr

/-- The `POST /api/documents/upload` handler
(`src/app/api/documents/upload/route.ts`): authenticate, check the role
column, validate form fields by JS truthiness, call `uploadDocument`, then try
to update the new document with `{title, document_type, description,
processing_status: 'draft'}` — an update error is logged and swallowed, and
the `documentId` is returned regardless. -/
def uploadPOST (sessionUser : Option String) (profiles : List ProfileRow)
    (file title documentType : Option String) (description : String)
    (docs : List DocumentRow) (newId : String) : UploadResponse × List DocumentRow :=
  match sessionUser with
  | none => (⟨401, none⟩, docs)
  | some uid =>
    match findProfileRole profiles uid with
    | none => (⟨403, none⟩, docs)
    | some role =>
      if ¬ (role = "curator" ∨ role = "admin") then (⟨403, none⟩, docs)
      else if ¬ (jsTruthy file ∧ jsTruthy title ∧ jsTruthy documentType) then
        (⟨400, none⟩, docs)
      else
        let (docs1, documentId) := uploadDocument docs newId
        let cols := [("title", title.getD ""), ("document_type", documentType.getD ""),
                     ("description", description), ("processing_status", "draft")]
        match documentsUpdate docs1 documentId cols with
        | .ok docs2 => (⟨200, some documentId⟩, docs2)
        | .error _ => (⟨200, some documentId⟩, docs1)

/-- Shared evaluation of the authorized upload path: the metadata update always
fails against the schema (the `title`/`document_type`/`description` columns do
not exist and `'draft'` violates the status enum), the error is swallowed, and
the handler answers 200 with the fresh document id, whose row keeps
`processing_status = "pending"`. -/
theorem uploadPOST_authorized_eval (uid : String) (profiles : List ProfileRow)
    (role : String) (file title documentType : Option String) (description : String)
    (docs : List DocumentRow) (newId : String)
    (hr : findProfileRole profiles uid = some role)
    (hrole : role = "curator" ∨ role = "admin")
    (hfields : jsTruthy file ∧ jsTruthy title ∧ jsTruthy documentType) :
    uploadPOST (some uid) profiles file title documentType description docs newId
      = (⟨200, some newId⟩, docs ++ [⟨newId, "pending", none⟩]) := by
  have hbad : documentsUpdate (docs ++ [⟨newId, "pending", none⟩]) newId
      [("title", title.getD ""), ("document_type", documentType.getD ""),
       ("description", description), ("processing_status", "draft")]
      = .error "column does not exist" := by
    simp [documentsUpdate, documentsColumns]
  simp [uploadPOST, hr, hrole, hfields, uploadDocument, hbad]

/-- C6: Every document record created by a successful upload has
`processing_status = "pending"` when the endpoint returns the document id, and
a store whose statuses all lie in the `processing_status` enum still has that
property afterwards. -/
theorem c6_upload_creates_pending (uid : String) (profiles : List ProfileRow)
    (role : String) (file title documentType : Option String) (description : String)
    (docs : List DocumentRow) (newId : String)
    (hr : findProfileRole profiles uid = some role)
    (hrole : role = "curator" ∨ role = "admin")
    (hfields : jsTruthy file ∧ jsTruthy title ∧ jsTruthy documentType)
    (hfresh : ∀ d ∈ docs, d.id ≠ newId)
    (henum : ∀ d ∈ docs, d.processing_status ∈ processingStatuses) :
    let out := uploadPOST (some uid) profiles file title documentType description docs newId
    out.1 = ⟨200, some newId⟩
    ∧ ((out.2.find? (fun d => d.id = newId)).map (·.processing_status) = some "pending")
    ∧ (∀ d ∈ out.2, d.processing_status ∈ processingStatuses) := by
  have heval := uploadPOST_authorized_eval uid profiles role file title documentType
    description docs newId hr hrole hfields
  refine ⟨by rw [heval], ?_, ?_⟩
  · rw [heval]
    have hnone : docs.find? (fun d => d.id = newId) = none := by
      rw [List.find?_eq_none]
      intro d hd
      simp [hfresh d hd]
    simp [List.find?_append, hnone]
  · rw [heval]
    intro d hd
    rcases List.mem_append.mp hd with h | h
    · exact henum d h
    · simp only [List.mem_singleton] at h
      subst h
      simp [processingStatuses]

/-- Closed instance of `c6_upload_creates_pending` on a one-curator, empty
document store. -/
theorem c6_upload_creates_pending_witness :
    (uploadPOST (some "u") [⟨"u", "e", "n", "curator", true, 0⟩]
        (some "f.pdf") (some "T") (some "fhir") "" [] "doc1").1
      = ⟨200, some "doc1"⟩ :=
  (c6_upload_creates_pending "u" [⟨"u", "e", "n", "curator", true, 0⟩] "curator"
    (some "f.pdf") (some "T") (some "fhir") "" [] "doc1" (by decide) (Or.inl rfl)
    (by decide) (by simp) (by simp)).1

/-- C10: On the authorized path with a successful file upload, the endpoint
answers 200 with the document id even though the subsequent metadata update
(title, document_type, description, processing_status) fails — the failure is
swallowed, and the final store is exactly the pre-update one, so no document
carries the attempted `'draft'` status. -/
theorem c10_upload_swallows_update_failure (uid : String) (profiles : List ProfileRow)
    (role : String) (file title documentType : Option String) (description : String)
    (docs : List DocumentRow) (newId : String)
    (hr : findProfileRole profiles uid = some role)
    (hrole : role = "curator" ∨ role = "admin")
    (hfields : jsTruthy file ∧ jsTruthy title ∧ jsTruthy documentType) :
    let out := uploadPOST (some uid) profiles file title documentType description docs newId
    out.1 = ⟨200, some newId⟩
    ∧ out.2 = docs ++ [⟨newId, "pending", none⟩]
    ∧ documentsUpdate (docs ++ [⟨newId, "pending", none⟩]) newId
        [("title", title.getD ""), ("document_type", documentType.getD ""),
         ("description", description), ("processing_status", "draft")]
        = .error "column does not exist" := by
  have heval := uploadPOST_authorized_eval uid profiles role file title documentType
    description docs newId hr hrole hfields
  refine ⟨by rw [heval], by rw [heval], ?_⟩
  simp [documentsUpdate, documentsColumns]

/-- Closed instance of `c10_upload_swallows_update_failure`. -/
theorem c10_upload_swallows_update_failure_witness :
    (uploadPOST (some "a") [⟨"a", "e", "n", "admin", true, 0⟩]
        (some "f.pdf") (some "T") (some "vbc") "d" [] "doc2").2
      = [⟨"doc2", "pending", none⟩] :=
  (c10_upload_swallows_update_failure "a" [⟨"a", "e", "n", "admin", true, 0⟩] "admin"
    (some "f.pdf") (some "T") (some "vbc") "d" [] "doc2" (by decide) (Or.inr rfl)
    (by decide)).2.1

/-- A row of `auth.users` as read by the signup trigger: id, email and the two
`raw_user_meta_data` keys the trigger consults. -/
structure AuthUser where
  id : String
  email : String
  meta_full_name : Option String
  meta_name : Option String
deriving DecidableEq, Repr

/-- `COALESCE(NEW.raw_user_meta_data->>'full_name',
NEW.raw_user_meta_data->>'name', '')` from `handle_new_user`. -/
def derivedFullName (u : AuthUser) : String :=
  ((u.meta_full_name).orElse (fun _ => u.meta_name)).getD ""

/-- `handle_new_user` from `001_initial_schema.sql` (identical in
`fix-user-trigger.sql`): insert a profile with role `'user'` (`is_active` takes
the table default `true`), `ON CONFLICT (id) DO NOTHING`; any exception during
the insert is logged and swallowed (`insertFails` stands for the backing
store's failure oracle), and the trigger returns `NEW` in every case. -/
def handle_new_user (profiles : List ProfileRow) (u : AuthUser) (insertFails : Bool) :
    List ProfileRow :=
  if insertFails then profiles
  else if profiles.any (fun p => p.id = u.id) then profiles
  else profiles ++ [⟨u.id, u.email, derivedFullName u, "user", true, 0⟩]

/-- An identity registration: the `INSERT INTO auth.users` together with its
`AFTER INSERT` trigger `on_auth_user_created`.  Because `handle_new_user`
swallows every exception and returns `NEW`, the registration itself always
commits the new auth user. -/
def registerUser (authUsers : List AuthUser) (profiles : List ProfileRow)
    (u : AuthUser) (insertFails : Bool) : List AuthUser × List ProfileRow :=
  (authUsers ++ [u], handle_new_user profiles u insertFails)

/-- C7: Profile auto-creation is idempotent (a no-op when a profile with
the identity's id already exists), assigns role `user` and `is_active = true`,
derives `full_name` from the identity metadata (`full_name`, then `name`) and
otherwise uses the empty string, and an insert failure is swallowed so the
triggering registration still appends the auth user. -/
theorem c7_profile_autocreation (authUsers : List AuthUser) (profiles : List ProfileRow)
    (u : AuthUser) (insertFails : Bool) :
    ((registerUser authUsers profiles u insertFails).1 = authUsers ++ [u])
    ∧ ((∃ p ∈ profiles, p.id = u.id) →
        (registerUser authUsers profiles u insertFails).2 = profiles)
    ∧ (insertFails = true →
        (registerUser authUsers profiles u insertFails).2 = profiles)
    ∧ (insertFails = false → (∀ p ∈ profiles, p.id ≠ u.id) →
        (registerUser authUsers profiles u insertFails).2
          = profiles ++ [⟨u.id, u.email, derivedFullName u, "user", true, 0⟩])
    ∧ (∀ fn, u.meta_full_name = some fn → derivedFullName u = fn)
    ∧ (∀ n, u.meta_full_name = none → u.meta_name = some n → derivedFullName u = n)
    ∧ (u.meta_full_name = none → u.meta_name = none → derivedFullName u = "") := by
  refine ⟨rfl, fun ⟨p, hp, hid⟩ => ?_, fun hf => ?_, fun hf hfresh => ?_,
    fun fn hfn => ?_, fun n hfn hn => ?_, fun hfn hn => ?_⟩
  · have hany : profiles.any (fun p => p.id = u.id) = true :=
      List.any_eq_true.mpr ⟨p, hp, by simp [hid]⟩
    simp [registerUser, handle_new_user, hany]
  · simp [registerUser, handle_new_user, hf]
  · have hany : profiles.any (fun p => p.id = u.id) = false := by
      rw [List.any_eq_false]
      intro p hp
      simp [hfresh p hp]
    simp [registerUser, handle_new_user, hf, hany]
  · simp [derivedFullName, hfn, Option.orElse]
  · simp [derivedFullName, hfn, hn, Option.orElse]
  · simp [derivedFullName, hfn, hn, Option.orElse]

/-- Closed instance of `c7_profile_autocreation`: re-registering an identity
that already has a profile leaves the profiles table unchanged while the
registration still succeeds. -/
theorem c7_profile_autocreation_witness :
    (registerUser [] [⟨"u1", "e", "old", "curator", true, 0⟩]
        ⟨"u1", "e", some "new", none⟩ false).2
      = [⟨"u1", "e", "old", "curator", true, 0⟩] :=
  (c7_profile_autocreation [] [⟨"u1", "e", "old", "curator", true, 0⟩]
    ⟨"u1", "e", some "new", none⟩ false).2.1
    ⟨⟨"u1", "e", "old", "curator", true, 0⟩, by simp, rfl⟩

/-- A row of the `settings` table: key, JSON object value (field-name/value
pairs), and the audit columns the route writes. -/
structure SettingRow where
  key : String
  value : List (String × String)
  updated_at : Nat
  updated_by : Option String
deriving DecidableEq, Repr

/-- A Supabase `upsert` on `settings` keyed by the primary key `key`: replace
the existing row or append a new one. -/
def upsertSetting (settings : List SettingRow) (row : SettingRow) : List SettingRow :=
  if settings.any (fun s => s.key = row.key) then
    settings.map (fun s => if s.key = row.key then row else s)
  else settings ++ [row]

/-- The row-level-security read rule on `settings` from
`001_initial_schema.sql`: policy "Anyone can view settings" grants `SELECT` to
the `authenticated` role with `USING (true)`; with RLS enabled and no anon
policy, an unauthenticated caller sees no rows. -/
def visibleSettings (authenticated : Bool) (settings : List SettingRow) : List SettingRow :=
  if authenticated then settings else []

/-- The document-processor half of the settings `POST` handler, entered after
the provider half: validate the enum, upsert `document_processor`, else 400. -/
def settingsProcessorStep (settings : List SettingRow) (uid : String)
    (documentProcessor : Option String) (now : Nat) : Nat × List SettingRow :=
  match documentProcessor with
  | none => (200, settings)
  | some d =>
    if ¬ (d = "flowise" ∨ d = "direct_gemini") then (400, settings)
    else (200, upsertSetting settings ⟨"document_processor", [("processor", d)], now, some uid⟩)

/-- The `POST /api/admin/settings` handler (second document inside
`src/app/api/documents/upload/route.ts`): 401 without a session, 403 unless
the profile role is `admin` (`is_active` is not read), then the provider
setting is validated and upserted before the documentProcessor setting is even
looked at. -/
def settingsPOST (sessionUser : Option String) (profiles : List ProfileRow)
    (settings : List SettingRow) (provider documentProcessor : Option String)
    (now : Nat) : Nat × List SettingRow :=
  match sessionUser with
  | none => (401, settings)
  | some uid =>
    if ¬ (findProfileRole profiles uid = some "admin") then (403, settings)
    else
      match provider with
      | none => settingsProcessorStep settings uid documentProcessor now
      | some p =>
        if ¬ (p = "gemini" ∨ p = "openai") then (400, settings)
        else
          settingsProcessorStep
            (upsertSetting settings ⟨"ai_provider", [("provider", p)], now, some uid⟩)
            uid documentProcessor now

/-- C8 counterexample: An admin whose profile has `is_active = false`
posts a valid provider together with an invalid documentProcessor: the route
answers 400, yet the `ai_provider` setting has already been persisted (and by
an inactive admin), contradicting both "writable only by an active admin" and
"400 … and no setting is persisted". -/
theorem c8_partial_persist_before_400 :
    settingsPOST (some "a") [⟨"a", "e", "n", "admin", false, 0⟩] []
        (some "openai") (some "bogus") 5
      = (400, [⟨"ai_provider", [("provider", "openai")], 5, some "a"⟩])
    ∧ (ProfileRow.is_active ⟨"a", "e", "n", "admin", false, 0⟩ = false) := by
  decide

/-- C8 amended: Settings are readable exactly by authenticated callers
(RLS read rule); the settings `POST` requires a session (else 401) and the
profile role `admin` (else 403) but never checks `is_active`; a provider
outside `{gemini, openai}` yields 400 before anything is persisted; a
documentProcessor outside `{flowise, direct_gemini}` yields 400 — with nothing
persisted when the request supplied no provider, but with a valid provider
supplied in the same request already upserted under `ai_provider`; each
supplied valid value is persisted under its key (`ai_provider` /
`document_processor`), alone or together, with a 200 answer, and a request
supplying neither persists nothing and answers 200. -/
theorem c8_settings_route (sessionUser : Option String) (profiles : List ProfileRow)
    (settings : List SettingRow) (provider documentProcessor : Option String) (now : Nat) :
    (visibleSettings true settings = settings ∧ visibleSettings false settings = [])
    ∧ (sessionUser = none →
        settingsPOST sessionUser profiles settings provider documentProcessor now
          = (401, settings))
    ∧ (∀ uid, sessionUser = some uid →
      (findProfileRole profiles uid ≠ some "admin" →
        settingsPOST sessionUser profiles settings provider documentProcessor now
          = (403, settings))
      ∧ (findProfileRole profiles uid = some "admin" →
        (∀ p, provider = some p → ¬ (p = "gemini" ∨ p = "openai") →
          settingsPOST sessionUser profiles settings provider documentProcessor now
            = (400, settings))
        ∧ (∀ p d, provider = some p → (p = "gemini" ∨ p = "openai") →
            documentProcessor = some d → ¬ (d = "flowise" ∨ d = "direct_gemini") →
          settingsPOST sessionUser profiles settings provider documentProcessor now
            = (400, upsertSetting settings ⟨"ai_provider", [("provider", p)], now, some uid⟩))
        ∧ (∀ p d, provider = some p → (p = "gemini" ∨ p = "openai") →
            documentProcessor = some d → (d = "flowise" ∨ d = "direct_gemini") →
          settingsPOST sessionUser profiles settings provider documentProcessor now
            = (200, upsertSetting
                (upsertSetting settings ⟨"ai_provider", [("provider", p)], now, some uid⟩)
                ⟨"document_processor", [("processor", d)], now, some uid⟩))
        ∧ (∀ d, provider = none → documentProcessor = some d →
            ¬ (d = "flowise" ∨ d = "direct_gemini") →
          settingsPOST sessionUser profiles settings provider documentProcessor now
            = (400, settings))
        ∧ (∀ d, provider = none → documentProcessor = some d →
            (d = "flowise" ∨ d = "direct_gemini") →
          settingsPOST sessionUser profiles settings provider documentProcessor now
            = (200, upsertSetting settings
                ⟨"document_processor", [("processor", d)], now, some uid⟩))
        ∧ (∀ p, provider = some p → (p = "gemini" ∨ p = "openai") →
            documentProcessor = none →
          settingsPOST sessionUser profiles settings provider documentProcessor now
            = (200, upsertSetting settings ⟨"ai_provider", [("provider", p)], now, some uid⟩))
        ∧ (provider = none → documentProcessor = none →
          settingsPOST sessionUser profiles settings provider documentProcessor now
            = (200, settings)))) := by
  refine ⟨⟨rfl, rfl⟩, fun h => by simp [settingsPOST, h],
    fun uid hu => ⟨fun hna => ?_, fun ha => ⟨fun p hp hbad => ?_,
      fun p d hp hgood hd hbad => ?_, fun p d hp hgood hd hgood2 => ?_,
      fun d hp hd hbad => ?_, fun d hp hd hgood2 => ?_,
      fun p hp hgood hd => ?_, fun hp hd => ?_⟩⟩⟩
  · simp [settingsPOST, hu, hna]
  · simp [settingsPOST, hu, ha, hp, hbad]
  · simp [settingsPOST, hu, ha, hp, hgood, settingsProcessorStep, hd, hbad]
  · simp [settingsPOST, hu, ha, hp, hgood, settingsProcessorStep, hd, hgood2]
  · simp [settingsPOST, hu, ha, hp, settingsProcessorStep, hd, hbad]
  · simp [settingsPOST, hu, ha, hp, settingsProcessorStep, hd, hgood2]
  · simp [settingsPOST, hu, ha, hp, hgood, settingsProcessorStep, hd]
  · simp [settingsPOST, hu, ha, hp, settingsProcessorStep, hd]

/-- Closed instance of `c8_settings_route`: an admin posting two valid values
gets 200 with both settings persisted. -/
theorem c8_settings_route_witness :
    settingsPOST (some "a") [⟨"a", "e", "n", "admin", true, 0⟩] []
        (some "gemini") (some "flowise") 3
      = (200, [⟨"ai_provider", [("provider", "gemini")], 3, some "a"⟩,
               ⟨"document_processor", [("processor", "flowise")], 3, some "a"⟩]) := by
  have h := (((c8_settings_route (some "a") [⟨"a", "e", "n", "admin", true, 0⟩] []
    (some "gemini") (some "flowise") 3).2.2 "a" rfl).2 (by decide)).2.2.1
    "gemini" "flowise" rfl (Or.inl rfl) rfl (Or.inl rfl)
  rw [h]
  decide

/-- JSON values occurring in a chunk's `ai_metadata` object (strings, numbers,
booleans, string arrays, null; the nested `acronyms` object is not needed by
any claim). -/
inductive JVal where
  | str : String → JVal
  | num : ℚ → JVal
  | jbool : Bool → JVal
  | strs : List String → JVal
  | null : JVal
deriving DecidableEq, Repr

/-- A JSON object as an association list in property order. -/
abbrev JObj := List (String × JVal)

/-- Property read on a JSON object (first binding wins; JS objects hold each
key once). -/
def getKey (o : JObj) (k : String) : Option JVal :=
  (o.find? (fun kv => kv.1 = k)).map (·.2)

/-- Whether the object has a binding for `k`. -/
def hasKeyB (o : JObj) (k : String) : Bool :=
  o.any (fun kv => kv.1 = k)

/-- JS property assignment `o[k] = v`: override in place when the key exists,
append otherwise. -/
def setKey (o : JObj) (k : String) (v : JVal) : JObj :=
  if hasKeyB o k then o.map (fun kv => if kv.1 = k then (k, v) else kv)
  else o ++ [(k, v)]

/-- The object spread `{...base, ...upd}`: assign `upd`'s bindings over `base`
in order. -/
def objMerge (base upd : JObj) : JObj :=
  upd.foldl (fun acc kv => setKey acc kv.1 kv.2) base

theorem getKey_eq_none_of_hasKeyB_false {o : JObj} {k : String}
    (h : hasKeyB o k = false) : getKey o k = none := by
  induction o with
  | nil => rfl
  | cons a t ih =>
    simp only [hasKeyB, List.any_cons, Bool.or_eq_false_iff] at h
    simp only [getKey, List.find?_cons, h.1]
    exact ih h.2

theorem getKey_map_override_ne (o : JObj) (k k' : String) (v : JVal) (h : k ≠ k') :
    getKey (o.map (fun kv => if kv.1 = k then (k, v) else kv)) k' = getKey o k' := by
  induction o with
  | nil => rfl
  | cons a t ih =>
    by_cases ha : a.1 = k
    · have hne : k ≠ k' := h
      simp only [List.map_cons, if_pos ha, getKey, List.find?_cons]
      rw [show (decide (k = k')) = false from decide_eq_false hne,
        show (decide (a.1 = k')) = false from decide_eq_false (ha ▸ hne)]
      exact ih
    · simp only [List.map_cons, if_neg ha, getKey, List.find?_cons]
      by_cases hk' : a.1 = k'
      · rw [show (decide (a.1 = k')) = true from decide_eq_true hk']
      · rw [show (decide (a.1 = k')) = false from decide_eq_false hk']
        exact ih

theorem getKey_map_override_self (o : JObj) (k : String) (v : JVal)
    (h : hasKeyB o k = true) :
    getKey (o.map (fun kv => if kv.1 = k then (k, v) else kv)) k = some v := by
  induction o with
  | nil => simp [hasKeyB] at h
  | cons a t ih =>
    by_cases ha : a.1 = k
    · simp [getKey, List.find?_cons, if_pos ha]
    · simp only [hasKeyB, List.any_cons, Bool.or_eq_true] at h
      rcases h with h | h
      · exact absurd (of_decide_eq_true h) ha
      · simp only [List.map_cons, if_neg ha, getKey, List.find?_cons,
          show (decide (a.1 = k)) = false from decide_eq_false ha]
        exact ih h

theorem getKey_append_single (o : JObj) (k k' : String) (v : JVal)
    (h : hasKeyB o k = false) :
    getKey (o ++ [(k, v)]) k' = if k' = k then some v else getKey o k' := by
  induction o with
  | nil =>
    by_cases hk : k' = k
    · subst hk
      simp [getKey, List.find?]
    · simp only [List.nil_append, getKey, List.find?, if_neg hk,
        show (decide (k = k')) = false from decide_eq_false (fun he => hk he.symm)]
  | cons a t ih =>
    simp only [hasKeyB, List.any_cons, Bool.or_eq_false_iff] at h
    by_cases hk' : a.1 = k'
    · have hne : ¬ k' = k := by
        intro he
        exact absurd (decide_eq_true (hk'.trans he)) (by simp [h.1])
      simp only [List.cons_append, getKey, List.find?_cons,
        show (decide (a.1 = k')) = true from decide_eq_true hk', if_neg hne]
    · have ihh := ih h.2
      simp only [List.cons_append, getKey, List.find?_cons,
        show (decide (a.1 = k')) = false from decide_eq_false hk'] at ihh ⊢
      exact ihh

theorem getKey_setKey (o : JObj) (k k' : String) (v : JVal) :
    getKey (setKey o k v) k' = if k' = k then some v else getKey o k' := by
  cases hmem : hasKeyB o k with
  | false =>
    have hform : setKey o k v = o ++ [(k, v)] := by
      simp [setKey, hmem]
    rw [hform]
    exact getKey_append_single o k k' v hmem
  | true =>
    have hform : setKey o k v = o.map (fun kv => if kv.1 = k then (k, v) else kv) := by
      simp [setKey, hmem]
    rw [hform]
    by_cases hk : k' = k
    · subst hk
      rw [if_pos rfl]
      exact getKey_map_override_self o k' v hmem
    · rw [if_neg hk]
      exact getKey_map_override_ne o k k' v (fun he => hk he.symm)

theorem getKey_objMerge (base upd : JObj) (k : String)
    (h : (upd.map Prod.fst).Nodup) :
    getKey (objMerge base upd) k
      = match getKey upd k with
        | some w => some w
        | none => getKey base k := by
  induction upd generalizing base with
  | nil => rfl
  | cons kv rest ih =>
    simp only [List.map_cons, List.nodup_cons] at h
    have step : objMerge base (kv :: rest) = objMerge (setKey base kv.1 kv.2) rest := rfl
    rw [step, ih _ h.2]
    by_cases hk : kv.1 = k
    · have hrest : getKey rest k = none := by
        apply getKey_eq_none_of_hasKeyB_false
        rw [hasKeyB, List.any_eq_false]
        intro x hx
        simp only [decide_eq_true_eq]
        intro hxk
        exact h.1 (hk ▸ hxk ▸ List.mem_map_of_mem Prod.fst hx)
      rw [hrest, getKey_setKey, if_pos hk.symm]
      simp [getKey, List.find?_cons, show (decide (kv.1 = k)) = true from decide_eq_true hk]
    · rw [getKey_setKey, if_neg (fun he => hk he.symm)]
      simp [getKey, List.find?_cons, show (decide (kv.1 = k)) = false from decide_eq_false hk]

/-- A row of `document_chunks` restricted to the fields the metadata route
reads or writes, plus the review fields the claim requires to stay framed. -/
structure ChunkRow where
  id : String
  ai_metadata : JObj
  review_status : String
  reviewed_by : Option String
  reviewed_at : Option Nat
  curator_notes : Option String
  metadata_edited : Bool
  metadata_edited_by : Option String
  metadata_edited_at : Option Nat
deriving DecidableEq, Repr

/-- Outcome of `PUT /api/chunks/{id}/metadata`: HTTP status and the merged
metadata object echoed on success. -/
structure MetadataResponse where
  status : Nat
  metadata : Option JObj
deriving DecidableEq, Repr

/-- The object the route stores:
`{...currentChunk.ai_metadata, ...metadata, last_updated: new Date().toISOString()}`. -/
def updatedMetadataOf (c : ChunkRow) (md : JObj) (now : Nat) : JObj :=
  setKey (objMerge c.ai_metadata md) "last_updated" (.str (toString now))

/-- The `PUT /api/chunks/{id}/metadata` handler (second document inside
`src/app/api/chunks/[id]/review/route.ts`): 401 without a session, 403 unless
the profile role is curator or admin, 400 when the body has no (truthy)
`metadata`, 404 when the chunk is not found, else store the merged metadata and
stamp the `metadata_edited*` columns. -/
def metadataPUT (sessionUser : Option String) (profiles : List ProfileRow)
    (chunks : List ChunkRow) (chunkId : String) (metadata : Option JObj) (now : Nat) :
    MetadataResponse × List ChunkRow :=
  match sessionUser with
  | none => (⟨401, none⟩, chunks)
  | some uid =>
    match findProfileRole profiles uid with
    | none => (⟨403, none⟩, chunks)
    | some role =>
      if ¬ (role = "curator" ∨ role = "admin") then (⟨403, none⟩, chunks)
      else
        match metadata with
        | none => (⟨400, none⟩, chunks)
        | some md =>
          match chunks.find? (fun c => c.id = chunkId) with
          | none => (⟨404, none⟩, chunks)
          | some c =>
            let um := updatedMetadataOf c md now
            (⟨200, some um⟩, chunks.map (fun c0 =>
              if c0.id = chunkId then
                { c0 with
                  ai_metadata := um,
                  metadata_edited := true,
                  metadata_edited_by := some uid,
                  metadata_edited_at := some now }
              else c0))

/-- C9 counterexample: the stored object is not a pure shallow merge of the
supplied keys into the existing `ai_metadata` — the route additionally writes a
`last_updated` key, here clobbering the existing binding `"old"` with the
current timestamp even though the supplied metadata does not mention that key. -/
theorem c9_last_updated_clobbered :
    ((metadataPUT (some "u") [⟨"u", "e", "n", "curator", true, 0⟩]
        [⟨"c1", [("last_updated", .str "old"), ("topic", .str "t0")], "pending",
          none, none, none, false, none, none⟩]
        "c1" (some [("topic", .str "t1")]) 99).2.map
      (fun c => getKey c.ai_metadata "last_updated"))
      = [some (.str "99")]
    ∧ getKey [("last_updated", JVal.str "old"), ("topic", JVal.str "t0")] "last_updated"
        = some (.str "old")
    ∧ getKey [("topic", JVal.str "t1")] "last_updated" = none := by
  decide

/-- C9 amended: for an authorized caller, `editMetadata` stores a shallow merge
of the supplied keys into the existing `ai_metadata` (supplied keys override
existing ones) except that the key `last_updated` is always set to the current
timestamp, overriding any supplied or existing binding; it sets
`metadata_edited = true`, `metadata_edited_by` and `metadata_edited_at`, leaves
`review_status`, `reviewed_by`, `reviewed_at` and `curator_notes` (and every
other chunk) unchanged; and it returns 404 with all chunks unchanged when the
referenced chunk does not exist. -/
theorem c9_metadata_edit (uid : String) (profiles : List ProfileRow) (role : String)
    (chunks : List ChunkRow) (chunkId : String) (md : JObj) (now : Nat)
    (hr : findProfileRole profiles uid = some role)
    (hrole : role = "curator" ∨ role = "admin") :
    (chunks.find? (fun c => c.id = chunkId) = none →
      metadataPUT (some uid) profiles chunks chunkId (some md) now = (⟨404, none⟩, chunks))
    ∧ (∀ c, chunks.find? (fun c0 => c0.id = chunkId) = some c →
      (metadataPUT (some uid) profiles chunks chunkId (some md) now
        = (⟨200, some (updatedMetadataOf c md now)⟩, chunks.map (fun c0 =>
            if c0.id = chunkId then
              { c0 with
                ai_metadata := updatedMetadataOf c md now,
                metadata_edited := true,
                metadata_edited_by := some uid,
                metadata_edited_at := some now }
            else c0)))
      ∧ getKey (updatedMetadataOf c md now) "last_updated" = some (.str (toString now))
      ∧ ((md.map Prod.fst).Nodup → ∀ k, k ≠ "last_updated" →
          getKey (updatedMetadataOf c md now) k
            = match getKey md k with
              | some w => some w
              | none => getKey c.ai_metadata k)
      ∧ ((metadataPUT (some uid) profiles chunks chunkId (some md) now).2.map
            (fun c0 => (c0.review_status, c0.reviewed_by, c0.reviewed_at, c0.curator_notes))
          = chunks.map
            (fun c0 => (c0.review_status, c0.reviewed_by, c0.reviewed_at, c0.curator_notes)))) := by
  constructor
  · intro hnone
    simp [metadataPUT, hr, hrole, hnone]
  · intro c hc
    have hmain : metadataPUT (some uid) profiles chunks chunkId (some md) now
        = (⟨200, some (updatedMetadataOf c md now)⟩, chunks.map (fun c0 =>
            if c0.id = chunkId then
              { c0 with
                ai_metadata := updatedMetadataOf c md now,
                metadata_edited := true,
                metadata_edited_by := some uid,
                metadata_edited_at := some now }
            else c0)) := by
      simp [metadataPUT, hr, hrole, hc]
    refine ⟨hmain, ?_, ?_, ?_⟩
    · rw [updatedMetadataOf, getKey_setKey, if_pos rfl]
    · intro hnd k hk
      rw [updatedMetadataOf, getKey_setKey, if_neg hk, getKey_objMerge _ _ _ hnd]
    · rw [hmain]
      simp only [List.map_map]
      apply List.map_congr_left
      intro c0 _
      by_cases h0 : c0.id = chunkId
      · simp [h0]
      · simp [h0]

/-- Closed instance of `c9_metadata_edit`: editing a missing chunk id answers
404 and leaves the chunk store unchanged. -/
theorem c9_metadata_edit_witness :
    metadataPUT (some "u") [⟨"u", "e", "n", "curator", true, 0⟩]
        [⟨"c1", [], "pending", none, none, none, false, none, none⟩]
        "zzz" (some [("topic", .str "t")]) 3
      = (⟨404, none⟩, [⟨"c1", [], "pending", none, none, none, false, none, none⟩]) :=
  (c9_metadata_edit "u" [⟨"u", "e", "n", "curator", true, 0⟩] "curator"
    [⟨"c1", [], "pending", none, none, none, false, none, none⟩]
    "zzz" [("topic", .str "t")] 3 (by decide) (Or.inl rfl)).1 (by decide)

/-- A row of `kb_vectors` restricted to the columns `match_documents` reads
for filtering and scoring.  The pgvector cosine-distance operator applied to
the (fixed) query embedding is opaque to this development, so each row carries
the two precomputed distances `embedding_openai <=> query_embedding` and
`embedding_gemini <=> query_embedding` as rational numbers; the `jsonb`
metadata payload of the result set is not modelled. -/
structure KbVector where
  id : Nat
  content : String
  doc_type : String
  use_cases : List String
  dist_openai : ℚ
  dist_gemini : ℚ
deriving DecidableEq, Repr

/-- The `CASE WHEN provider = 'openai' THEN … ELSE … END` distance expression
used in both the `SELECT` list and the `ORDER BY` of `match_documents`. -/
def provDist (provider : String) (r : KbVector) : ℚ :=
  if provider = "openai" then r.dist_openai else r.dist_gemini

/-- The reported similarity `1 - (embedding <=> query_embedding)`. -/
def rowSimilarity (provider : String) (r : KbVector) : ℚ :=
  1 - provDist provider r

/-- The `WHERE` clause of `match_documents`: doc-type filter, use-cases
overlap (`&&`), and `1 - distance > match_threshold` on the provider's own
embedding column (strict inequality in the source). -/
def matchFilter (provider : String) (match_threshold : ℚ) (filter_doc_type : Option String)
    (filter_use_cases : Option (List String)) (r : KbVector) : Bool :=
  (match filter_doc_type with
   | none => true
   | some t => decide (r.doc_type = t)) &&
  (match filter_use_cases with
   | none => true
   | some ucs => r.use_cases.any (fun u => ucs.any (fun w => decide (w = u)))) &&
  ((decide (provider = "openai") && decide (match_threshold < 1 - r.dist_openai)) ||
   (decide (provider = "gemini") && decide (match_threshold < 1 - r.dist_gemini)))

/-- A row of the `RETURNS TABLE (id, content, similarity, metadata)` of
`match_documents`, without the unmodelled `jsonb` payload. -/
structure MatchResult where
  id : Nat
  content : String
  similarity : ℚ
deriving DecidableEq, Repr

/-- `match_documents` from `001_initial_schema.sql`: filter by the `WHERE`
clause, order by the provider's cosine distance ascending, limit to
`match_count`, and report each row's id, content and similarity. -/
def match_documents (rows : List KbVector) (match_threshold : ℚ) (match_count : Nat)
    (filter_doc_type : Option String) (filter_use_cases : Option (List String))
    (provider : String) : List MatchResult :=
  ((((rows.filter
        (matchFilter provider match_threshold filter_doc_type filter_use_cases)).insertionSort
      (fun a b => provDist provider a ≤ provDist provider b)).take match_count).map
    (fun r => ⟨r.id, r.content, rowSimilarity provider r⟩))

/-- C3: the similarity search returns only records whose similarity against
the provider's embedding column is at least the threshold (the source even
guarantees strictly greater), returns at most `match_count` records, and
returns them ordered by descending similarity (ascending cosine distance). -/
theorem c3_search_contract (rows : List KbVector) (match_threshold : ℚ)
    (match_count : Nat) (filter_doc_type : Option String)
    (filter_use_cases : Option (List String)) (provider : String) :
    (∀ m ∈ match_documents rows match_threshold match_count filter_doc_type
        filter_use_cases provider, match_threshold ≤ m.similarity)
    ∧ (match_documents rows match_threshold match_count filter_doc_type
        filter_use_cases provider).length ≤ match_count
    ∧ (match_documents rows match_threshold match_count filter_doc_type
        filter_use_cases provider).Sorted (fun a b => b.similarity ≤ a.similarity) := by
  refine ⟨?_, ?_, ?_⟩
  · intro m hm
    rw [match_documents] at hm
    rcases List.mem_map.mp hm with ⟨r, hr, hm'⟩
    have hr2 : r ∈ (rows.filter
        (matchFilter provider match_threshold filter_doc_type filter_use_cases)) :=
      (List.mem_insertionSort _).mp (List.mem_of_mem_take hr)
    have hf := List.of_mem_filter hr2
    simp only [matchFilter, Bool.and_eq_true, Bool.or_eq_true] at hf
    rcases hf.2 with ⟨hp, hlt⟩ | ⟨hp, hlt⟩
    · rw [decide_eq_true_eq] at hp hlt
      have hsim : m.similarity = 1 - r.dist_openai := by
        rw [← hm']
        simp [rowSimilarity, provDist, hp]
      rw [hsim]
      exact le_of_lt hlt
    · rw [decide_eq_true_eq] at hp hlt
      have hsim : m.similarity = 1 - r.dist_gemini := by
        rw [← hm']
        simp [rowSimilarity, provDist, hp]
      rw [hsim]
      exact le_of_lt hlt
  · rw [match_documents, List.length_map]
    exact le_trans (Nat.le_of_eq (List.length_take _ _)) (min_le_left _ _)
  · haveI hto : IsTotal KbVector (fun a b => provDist provider a ≤ provDist provider b) :=
      ⟨fun a b => le_total _ _⟩
    haveI htr : IsTrans KbVector (fun a b => provDist provider a ≤ provDist provider b) :=
      ⟨fun a b c hab hbc => le_trans hab hbc⟩
    have hsorted := List.sorted_insertionSort
      (fun a b => provDist provider a ≤ provDist provider b)
      (rows.filter (matchFilter provider match_threshold filter_doc_type filter_use_cases))
    have htaken := hsorted.sublist (List.take_sublist match_count _)
    rw [match_documents, List.Sorted, List.pairwise_map]
    refine htaken.imp ?_
    intro a b hab
    exact sub_le_sub_left hab 1

/-- Closed instance of `c3_search_contract`: on a one-row store under the
gemini provider with threshold `0` and distance `0`, the returned record's
similarity is at least the threshold. -/
theorem c3_search_contract_witness :
    (0 : ℚ) ≤ (MatchResult.mk 1 "c" 1).similarity := by
  have h := (c3_search_contract [⟨1, "c", "fhir", [], 0, 0⟩] 0 10 none none "gemini").1
  apply h
  have heval : match_documents [⟨1, "c", "fhir", [], 0, 0⟩] 0 10 none none "gemini"
      = [⟨1, "c", 1⟩] := by
    have hfil : matchFilter "gemini" 0 none none ⟨1, "c", "fhir", [], 0, 0⟩ = true := by
      simp [matchFilter]
    simp [match_documents, List.filter, hfil, List.insertionSort, List.orderedInsert,
      rowSimilarity, provDist]
  rw [heval]
  exact List.mem_singleton.mpr rfl

end Curator
